import Mathlib

/-!
Shallow embedding of the request-processing cache of the rail_pz_service
repository: the database rows it consumes, the resolution cache with its
four slot maps (src/rail_pz_service/db/cache.py), the catalog-tag tree
builder and the tree projection (rail_pz_service/models/trees.py), the
dataset creation-keyword validation (rail_pz_service/db/dataset.py) and the
row-store accessors (RowMixin in rail/pz_service/db/row.py).

External capabilities (ceci stage lookup, rail PZFactory construction and
execution, file writes) are parameters of an environment record; every
invocation of one of them is counted in an explicit trace so that claims
about "no additional construction work" are statable.
-/

namespace RailPZ

/-! ### Database rows

Fields follow the SQLAlchemy column declarations of the corresponding
tables (algorithm.py, catalog_tag.py, model.py, estimator.py, dataset.py,
request.py).  Timestamps are modelled as natural numbers drawn from an
explicit clock. -/

abbrev Config := List (String × Nat)

abbrev DataDict := List (String × List Nat)

structure AlgorithmRow where
  id : Nat
  name : String
  class_name : String
deriving Repr, DecidableEq

structure CatalogTagRow where
  id : Nat
  name : String
  class_name : String
deriving Repr, DecidableEq

structure ModelRow where
  id : Nat
  name : String
  path : String
  algo_id : Nat
  catalog_tag_id : Nat
deriving Repr, DecidableEq

structure EstimatorRow where
  id : Nat
  name : String
  config : Option Config
  algo_id : Nat
  catalog_tag_id : Nat
  model_id : Nat
deriving Repr, DecidableEq

structure DatasetRow where
  id : Nat
  name : String
  n_objects : Nat
  path : Option String
  data : Option DataDict
  catalog_tag_id : Nat
deriving Repr, DecidableEq

structure RequestRow where
  id : Nat
  user : String
  estimator_id : Nat
  dataset_id : Nat
  qp_file_path : Option String
  time_created : Nat
  time_finished : Option Nat
deriving Repr, DecidableEq

/-- Python str() of an optional string, as it appears inside f-strings:
None prints as "None", a string prints verbatim. -/
def optStr : Option String → String
  | none => "None"
  | some s => s

/-- The f-string of Algorithm.__repr__ . -/
def reprAlgorithm (a : AlgorithmRow) : String :=
  "Algorithm " ++ a.name ++ " " ++ toString a.id ++ " " ++ a.class_name

/-- The f-string of CatalogTag.__repr__ . -/
def reprCatalogTag (c : CatalogTagRow) : String :=
  "CatalogTag " ++ c.name ++ " " ++ toString c.id ++ " " ++ c.class_name

/-- The f-string of Estimator.__repr__ . -/
def reprEstimator (e : EstimatorRow) : String :=
  "Estimator " ++ e.name ++ " " ++ toString e.id ++ " " ++ toString e.algo_id
    ++ " " ++ toString e.catalog_tag_id ++ " " ++ toString e.model_id

/-- The f-string of Request.__repr__ in db/request.py . -/
def reprRequest (r : RequestRow) : String :=
  "Request " ++ toString r.id ++ " " ++ r.user ++ " " ++ toString r.estimator_id
    ++ " " ++ toString r.dataset_id ++ " " ++ optStr r.qp_file_path

/-! ### Python dict as an association list

The cache's slot maps are Python dicts keyed by row id.  Insertion keeps
order; overwriting keeps the key's position. -/

def alookup {α : Type} : List (Nat × α) → Nat → Option α
  | [], _ => none
  | p :: t, k => if p.1 == k then some p.2 else alookup t k

def amem {α : Type} : List (Nat × α) → Nat → Bool
  | [], _ => false
  | p :: t, k => p.1 == k || amem t k

def aset {α : Type} (m : List (Nat × α)) (k : Nat) (v : α) : List (Nat × α) :=
  if amem m k then m.map (fun p => if p.1 == k then (k, v) else p) else m ++ [(k, v)]

/-! ### Errors

Python exception types raised by the core, one constructor per class of
the repository's error taxonomy (common/errors.py); `otherErr` stands for
any exception outside that taxonomy.  An `except` clause catching one of
the RAIL error classes catches exactly the corresponding constructor. -/

inductive PyErr where
  | missingID (msg : String)
  | missingName (msg : String)
  | importErr (msg : String)
  | requestErr (msg : String)
  | integrityErr (msg : String)
  | missingCreateInput (msg : String)
  | otherErr (msg : String)
deriving Repr, DecidableEq

instance {ε α : Type} [DecidableEq ε] [DecidableEq α] : DecidableEq (Except ε α) := fun x y =>
  match x, y with
  | Except.error a, Except.error b =>
      if h : a = b then .isTrue (by rw [h]) else .isFalse (by intro hh; injection hh; contradiction)
  | Except.ok a, Except.ok b =>
      if h : a = b then .isTrue (by rw [h]) else .isFalse (by intro hh; injection hh; contradiction)
  | Except.error _, Except.ok _ => .isFalse (by intro hh; exact Except.noConfusion hh)
  | Except.ok _, Except.error _ => .isFalse (by intro hh; exact Except.noConfusion hh)

/-! ### Row store

Lists of rows; `get_row` and `get_row_by_name` follow RowMixin (row.py):
a missing id raises the missing-ID error, a missing name the missing-name
error.  `get_rows` is called by the cache with its default arguments
skip=0, limit=100 (row.py declares those defaults). -/

structure RowStore where
  algorithms : List AlgorithmRow
  catalog_tags : List CatalogTagRow
  models : List ModelRow
  estimators : List EstimatorRow
  datasets : List DatasetRow
  requests : List RequestRow
deriving Repr, DecidableEq

def getAlgorithmRow (s : RowStore) (k : Nat) : Option AlgorithmRow :=
  s.algorithms.find? (fun r => r.id == k)

def getCatalogTagRow (s : RowStore) (k : Nat) : Option CatalogTagRow :=
  s.catalog_tags.find? (fun r => r.id == k)

def getModelRow (s : RowStore) (k : Nat) : Option ModelRow :=
  s.models.find? (fun r => r.id == k)

def getEstimatorRow (s : RowStore) (k : Nat) : Option EstimatorRow :=
  s.estimators.find? (fun r => r.id == k)

def getDatasetRow (s : RowStore) (k : Nat) : Option DatasetRow :=
  s.datasets.find? (fun r => r.id == k)

def getRequestRow (s : RowStore) (k : Nat) : Option RequestRow :=
  s.requests.find? (fun r => r.id == k)

def getCatalogTagRowByName (s : RowStore) (n : String) : Option CatalogTagRow :=
  s.catalog_tags.find? (fun r => r.name == n)

/-- RowMixin.get_rows with its default arguments skip=0, limit=100, as the
cache invokes it. -/
def getRowsDefault {α : Type} (l : List α) : List α :=
  (l.drop 0).take 100

/-! ### Tree models (rail_pz_service/models/trees.py)

The pydantic leaf models carry exactly the row fields, so the row types
stand in for their pydantic projections (models.Request.model_validate
copies the row's columns field by field).  Dicts keyed by row id are
association lists in insertion order. -/

structure EstimatorLeaf where
  estimator : EstimatorRow
  request : Option RequestRow
deriving Repr, DecidableEq

structure ModelLeaf where
  estimators : List (Nat × EstimatorLeaf)
  model : ModelRow
deriving Repr, DecidableEq

structure AlgoLeaf where
  models : List (Nat × ModelLeaf)
  algo : AlgorithmRow
deriving Repr, DecidableEq

structure DatasetLeaf where
  requests : List (Nat × RequestRow)
  dataset : DatasetRow
deriving Repr, DecidableEq

structure CatalogTagLeaf where
  algos : List (Nat × AlgoLeaf)
  datasets : List (Nat × DatasetLeaf)
  catalog_tag : Option CatalogTagRow
deriving Repr, DecidableEq

structure CatalogTagDatasetTree where
  algos : List (Nat × AlgoLeaf)
  dataset : Option DatasetRow
  catalog_tag : Option CatalogTagRow
  request_by_estimator : List (Nat × RequestRow)
deriving Repr, DecidableEq

structure CatalogTagTree where
  catalog_tags : List (String × CatalogTagLeaf)
deriving Repr, DecidableEq

/-! ### External capabilities

The ceci / rail entry points the cache calls, as an environment record.
Each returns either a value or the Python exception it raised.  ceci's
PipelineStage.get_stage and CatalogConfigBase.get_class raise errors whose
message text is what the cache interpolates into its own error strings. -/

structure PyClass where
  clsName : String
deriving Repr, DecidableEq

/-- A PZFactory stage instance: its stage name and the output path that
_process_request installs into its `_outputs` mapping. -/
structure EstInstance where
  stageName : String
  outputPath : Option String
deriving Repr, DecidableEq

structure Env where
  getStage : String → String → Except String PyClass
  getCatalogClass : String → String → Except String PyClass
  buildStageInstance : String → PyClass → String → Config → Except PyErr EstInstance
  runCatEstimatorStage : EstInstance → String → Except PyErr Unit
  estimateSinglePZ : EstInstance → DataDict → Nat → Except PyErr Unit
  writeHandle : EstInstance → Except PyErr Unit
  validateDataForPath : String → CatalogTagRow → Except PyErr Nat
  validateData : DataDict → CatalogTagRow → Except PyErr Nat
  archive : String

/-- Invocation counters for the external capabilities: resolver calls
(stage lookups, catalog-class lookups), estimator constructions, and
request executions. -/
structure Trace where
  stageLoads : Nat
  catalogLoads : Nat
  builds : Nat
  runs : Nat
deriving Repr, DecidableEq

/-- The four slot maps and the tree snapshot of db/cache.py; a slot
holding `none` is the Python dict entry storing None, the permanent-failure
marker. -/
structure CacheState where
  algorithms : List (Nat × Option PyClass)
  catalog_tags : List (Nat × Option PyClass)
  estimators : List (Nat × Option EstInstance)
  qp_files : List (Nat × Option String)
  tree : Option CatalogTagTree
deriving Repr, DecidableEq

def CacheState.empty : CacheState :=
  { algorithms := [], catalog_tags := [], estimators := [], qp_files := [], tree := none }

/-- Full state threaded through the operations: the row store, the cache,
the capability-invocation trace and a clock supplying datetime.now(). -/
structure St where
  store : RowStore
  cache : CacheState
  trace : Trace
  clock : Nat
deriving Repr, DecidableEq

def bumpStageLoads (st : St) : St :=
  { st with trace := { st.trace with stageLoads := st.trace.stageLoads + 1 } }

def bumpCatalogLoads (st : St) : St :=
  { st with trace := { st.trace with catalogLoads := st.trace.catalogLoads + 1 } }

def bumpBuilds (st : St) : St :=
  { st with trace := { st.trace with builds := st.trace.builds + 1 } }

def bumpRuns (st : St) : St :=
  { st with trace := { st.trace with runs := st.trace.runs + 1 } }

def markAlgorithmFailed (st : St) (k : Nat) : St :=
  { st with cache := { st.cache with algorithms := aset st.cache.algorithms k none } }

def markCatalogTagFailed (st : St) (k : Nat) : St :=
  { st with cache := { st.cache with catalog_tags := aset st.cache.catalog_tags k none } }

def markEstimatorFailed (st : St) (k : Nat) : St :=
  { st with cache := { st.cache with estimators := aset st.cache.estimators k none } }

def markQpFileFailed (st : St) (k : Nat) : St :=
  { st with cache := { st.cache with qp_files := aset st.cache.qp_files k none } }

/-! ### Cache operations (db/cache.py) -/

/-- Cache.clear: reset the four slot maps and drop the tree snapshot. -/
def clearCache (st : St) : St :=
  { st with cache := CacheState.empty }

/-- Cache._load_algorithm_class: split the dotted class name, look the
stage up through ceci; on StageNotFound raise RAILImportError with the
interpolated message. -/
def loadAlgorithmClass (env : Env) (algorithm : AlgorithmRow) : Except String PyClass :=
  let tokens := algorithm.class_name.splitOn "."
  let module_name := String.intercalate "." tokens.dropLast
  let cls := tokens.getLastD ""
  match env.getStage cls module_name with
  | .ok c => .ok c
  | .error missing_stage =>
      .error ("Failed to load stage " ++ algorithm.class_name ++ " because " ++ missing_stage)

/-- Cache._load_catalog_tag_class: analogous, through
CatalogConfigBase.get_class; on KeyError raise RAILImportError. -/
def loadCatalogTagClass (env : Env) (catalog_tag : CatalogTagRow) : Except String PyClass :=
  let tokens := catalog_tag.class_name.splitOn "."
  let module_name := String.intercalate "." tokens.dropLast
  let cls := tokens.getLastD ""
  match env.getCatalogClass cls module_name with
  | .ok c => .ok c
  | .error missing_key =>
      .error ("Failed to load catalog_tag " ++ cls ++ " because " ++ missing_key)

/-- Cache.get_algo_class.  A slot holding None re-fetches the row (so a
deleted row surfaces the missing-ID error) and re-raises an import error;
a resolved slot returns its value; an absent slot fetches the row and
attempts the load, storing None into the slot map only on failure. -/
def get_algo_class (env : Env) (st : St) (key : Nat) : Except PyErr PyClass × St :=
  match alookup st.cache.algorithms key with
  | some none =>
      match getAlgorithmRow st.store key with
      | none => (.error (.missingID ("Algorithm " ++ toString key ++ " not found")), st)
      | some algo_ =>
          (.error (.importErr ("Failed to load alogrithm " ++ reprAlgorithm algo_)), st)
  | some (some algo_class) => (.ok algo_class, st)
  | none =>
      match getAlgorithmRow st.store key with
      | none => (.error (.missingID ("Algorithm " ++ toString key ++ " not found")), st)
      | some algo_ =>
          let st1 := bumpStageLoads st
          match loadAlgorithmClass env algo_ with
          | .error failed_import =>
              (.error (.importErr ("Import of Algorithm failed because " ++ failed_import)),
                markAlgorithmFailed st1 key)
          | .ok algo_class => (.ok algo_class, st1)

/-- Cache.get_catalog_tag_class, mirroring get_algo_class. -/
def get_catalog_tag_class (env : Env) (st : St) (key : Nat) : Except PyErr PyClass × St :=
  match alookup st.cache.catalog_tags key with
  | some none =>
      match getCatalogTagRow st.store key with
      | none => (.error (.missingID ("CatalogTag " ++ toString key ++ " not found")), st)
      | some catalog_tag_ =>
          (.error (.importErr ("Failed to load catalog_tags " ++ reprCatalogTag catalog_tag_)), st)
  | some (some catalog_tag_class) => (.ok catalog_tag_class, st)
  | none =>
      match getCatalogTagRow st.store key with
      | none => (.error (.missingID ("CatalogTag " ++ toString key ++ " not found")), st)
      | some catalog_tag_ =>
          let st1 := bumpCatalogLoads st
          match loadCatalogTagClass env catalog_tag_ with
          | .error failed_import =>
              (.error (.importErr ("Import of CatalogTag failed because " ++ failed_import)),
                markCatalogTagFailed st1 key)
          | .ok catalog_tag_class => (.ok catalog_tag_class, st1)

/-- Cache._build_estimator: resolve the algorithm and catalog-tag classes,
fetch the Model row, default the config to an empty dict, and invoke
PZFactory.build_stage_instance. -/
def _build_estimator (env : Env) (st : St) (estimator : EstimatorRow) :
    Except PyErr EstInstance × St :=
  match get_algo_class env st estimator.algo_id with
  | (.error e, st1) => (.error e, st1)
  | (.ok algo_class, st1) =>
      match get_catalog_tag_class env st1 estimator.catalog_tag_id with
      | (.error e, st2) => (.error e, st2)
      | (.ok _catalog_tag_class, st2) =>
          match getModelRow st2.store estimator.model_id with
          | none =>
              (.error (.missingID ("Model " ++ toString estimator.model_id ++ " not found")), st2)
          | some model =>
              let config := match estimator.config with
                | none => []
                | some c => c
              let st3 := bumpBuilds st2
              (env.buildStageInstance estimator.name algo_class model.path config, st3)

/-- Cache.get_estimator.  Only a RAILImportError from the build marks the
slot Failed and is re-wrapped; a successful build returns the instance
without storing it in the slot map. -/
def get_estimator (env : Env) (st : St) (key : Nat) : Except PyErr EstInstance × St :=
  match alookup st.cache.estimators key with
  | some none =>
      match getEstimatorRow st.store key with
      | none => (.error (.missingID ("Estimator " ++ toString key ++ " not found")), st)
      | some estimator_ =>
          (.error (.importErr ("Failed to load Estimator " ++ reprEstimator estimator_)), st)
  | some (some estimator) => (.ok estimator, st)
  | none =>
      match getEstimatorRow st.store key with
      | none => (.error (.missingID ("Estimator " ++ toString key ++ " not found")), st)
      | some estimator_ =>
          match _build_estimator env st estimator_ with
          | (.error (.importErr failed_import), st1) =>
              (.error (.importErr ("Import of Estimator failed because " ++ failed_import)),
                markEstimatorFailed st1 key)
          | (.error e, st1) => (.error e, st1)
          | (.ok estimator, st1) => (.ok estimator, st1)

/-- request.update_values(session, qp_file_path=..., time_finished=...):
one transactional write updating both completion fields of the row. -/
def updateRequestFinished (store : RowStore) (rid : Nat) (path : String) (now : Nat) :
    RowStore :=
  { store with requests := store.requests.map (fun r =>
      if r.id == rid then { r with qp_file_path := some path, time_finished := some now } else r) }

/-- The deterministic destination under the archive root, from the
dataset and estimator names only. -/
def outputPathFor (env : Env) (dataset : DatasetRow) (estimator : EstimatorRow) : String :=
  env.archive ++ "/qp_files/" ++ dataset.name ++ "/" ++ estimator.name ++ ".hdf5"

/-- The assignment into the instance's `_outputs` mapping: the aliased
output tag now points at the chosen destination path. -/
def withOutput (i : EstInstance) (p : String) : EstInstance :=
  { i with outputPath := some p }

/-- The dataset-representation branch of _process_request: a file-backed
dataset goes through the batch entry point (which writes as a side
effect); an inline dataset goes through the single-batch entry point
followed by an explicit handle write. -/
def runRequestStage (env : Env) (st : St) (inst : EstInstance) (dataset : DatasetRow) :
    Except PyErr Unit × St :=
  match dataset.path with
  | some p => (env.runCatEstimatorStage inst p, bumpRuns st)
  | none =>
      match env.estimateSinglePZ inst (dataset.data.getD []) dataset.n_objects with
      | .error e => (.error e, bumpRuns st)
      | .ok _ => (env.writeHandle inst, bumpRuns st)

/-- Cache._process_request: fetch the Estimator row and the built
instance, fetch the Dataset row, point the instance's output at the
deterministic archive path, run the file-backed or the inline entry point,
then record completion (qp_file_path and time_finished together) on the
Request row. -/
def _process_request (env : Env) (st : St) (request : RequestRow) :
    Except PyErr String × St :=
  match getEstimatorRow st.store request.estimator_id with
  | none =>
      (.error (.missingID ("Estimator " ++ toString request.estimator_id ++ " not found")), st)
  | some estimator =>
      match get_estimator env st request.estimator_id with
      | (.error e, st1) => (.error e, st1)
      | (.ok estimator_instance, st1) =>
          match getDatasetRow st1.store request.dataset_id with
          | none =>
              (.error (.missingID ("Dataset " ++ toString request.dataset_id ++ " not found")), st1)
          | some dataset =>
              match runRequestStage env st1
                  (withOutput estimator_instance (outputPathFor env dataset estimator))
                  dataset with
              | (.error e, st2) => (.error e, st2)
              | (.ok _, st2) =>
                  (.ok (outputPathFor env dataset estimator),
                    { st2 with
                        store :=
                          updateRequestFinished st2.store request.id
                            (outputPathFor env dataset estimator) st2.clock })

/-- Cache.get_qp_file.  A slot holding None re-fetches the Request row and
raises the memoized request error; an absent slot fetches the row and
processes the request, but only a RAILRequestError raised by the
processing marks the slot Failed and is re-wrapped — any other exception
propagates unchanged — and a successful path is returned without being
stored in the slot map. -/
def get_qp_file (env : Env) (st : St) (key : Nat) : Except PyErr String × St :=
  match alookup st.cache.qp_files key with
  | some none =>
      match getRequestRow st.store key with
      | none => (.error (.missingID ("Request " ++ toString key ++ " not found")), st)
      | some request_ =>
          (.error (.requestErr ("Request failed " ++ reprRequest request_)), st)
  | some (some qp_file) => (.ok qp_file, st)
  | none =>
      match getRequestRow st.store key with
      | none => (.error (.missingID ("Request " ++ toString key ++ " not found")), st)
      | some request_ =>
          match _process_request env st request_ with
          | (.error (.requestErr failed_request), st1) =>
              (.error (.requestErr ("Request failed because " ++ failed_request)),
                markQpFileFailed st1 key)
          | (.error e, st1) => (.error e, st1)
          | (.ok qp_file, st1) => (.ok qp_file, st1)

/-! ### Catalog tree builder (Cache._build_catalog_tag_tree)

The SQLAlchemy relationship attributes refreshed by the builder
(catalog_tag.models_ / .datasets_, dataset.requests_, model.estimators_)
are the rows whose foreign key points at the parent, in store order. -/

def requestsOfDataset (s : RowStore) (d : DatasetRow) : List RequestRow :=
  s.requests.filter (fun r => r.dataset_id == d.id)

def estimatorsOfModel (s : RowStore) (m : ModelRow) : List EstimatorRow :=
  s.estimators.filter (fun e => e.model_id == m.id)

def modelsOfCatalogTag (s : RowStore) (c : CatalogTagRow) : List ModelRow :=
  s.models.filter (fun m => m.catalog_tag_id == c.id)

def datasetsOfCatalogTag (s : RowStore) (c : CatalogTagRow) : List DatasetRow :=
  s.datasets.filter (fun d => d.catalog_tag_id == c.id)

/-- The algos_lists dict update inside the model loop: append to the
existing entry for the model's algo_id, or start a fresh entry. -/
def appendModelLeaf (m : List (Nat × List ModelLeaf)) (k : Nat) (v : ModelLeaf) :
    List (Nat × List ModelLeaf) :=
  if amem m k then m.map (fun p => if p.1 == k then (p.1, p.2 ++ [v]) else p)
  else m ++ [(k, [v])]

/-- One ModelLeaf of the builder: the model's estimators keyed by id, each
EstimatorLeaf born with request=None. -/
def buildModelLeaf (s : RowStore) (model_ : ModelRow) : ModelLeaf :=
  { estimators := (estimatorsOfModel s model_).map
      (fun estimator_ => (estimator_.id, { estimator := estimator_, request := none }))
    model := model_ }

/-- The algo_tree loop of the builder: each algos_lists entry is turned
into an AlgoLeaf keyed by the re-fetched algorithm row's id, in order; the
first missing algorithm row aborts the whole build. -/
def buildAlgoTreeList (s : RowStore) :
    List (Nat × List ModelLeaf) → Except PyErr (List (Nat × AlgoLeaf))
  | [] => .ok []
  | p :: rest =>
      match getAlgorithmRow s p.1 with
      | none => .error (.missingID ("Algorithm " ++ toString p.1 ++ " not found"))
      | some the_algo =>
          match buildAlgoTreeList s rest with
          | .error e => .error e
          | .ok t =>
              .ok ((the_algo.id,
                ({ models := p.2.map (fun model_leaf => (model_leaf.model.id, model_leaf))
                   algo := the_algo } : AlgoLeaf)) :: t)

/-- The per-CatalogTag section of the builder loop: datasets with their
requests, algos_lists seeded with an empty list for every algorithm of the
row listing, models folded into algos_lists, and the final algo_tree
produced by re-fetching each algorithm row (a missing one aborts). -/
def buildCatalogTagLeaf (s : RowStore) (algos : List AlgorithmRow) (catalog_tag_ : CatalogTagRow) :
    Except PyErr CatalogTagLeaf :=
  (buildAlgoTreeList s
      ((modelsOfCatalogTag s catalog_tag_).foldl
        (fun acc model_ => appendModelLeaf acc model_.algo_id (buildModelLeaf s model_))
        (algos.map (fun algo_ => (algo_.id, ([] : List ModelLeaf)))))).map
    (fun t =>
      { algos := t
        datasets := (datasetsOfCatalogTag s catalog_tag_).map (fun dataset_ =>
          (dataset_.id,
            { requests :=
                (requestsOfDataset s dataset_).map (fun request_ => (request_.id, request_))
              dataset := dataset_ }))
        catalog_tag := some catalog_tag_ })

/-- The outer catalog-tag loop of the builder: one leaf per catalog tag,
keyed by name, in order; the first failure aborts the whole build. -/
def buildLeavesList (s : RowStore) (algos : List AlgorithmRow) :
    List CatalogTagRow → Except PyErr (List (String × CatalogTagLeaf))
  | [] => .ok []
  | catalog_tag_ :: rest =>
      match buildCatalogTagLeaf s algos catalog_tag_ with
      | .error e => .error e
      | .ok leaf =>
          match buildLeavesList s algos rest with
          | .error e => .error e
          | .ok t => .ok ((catalog_tag_.name, leaf) :: t)

/-- Cache._build_catalog_tag_tree: catalog tags and algorithms come from
get_rows with default pagination; the top level is keyed by catalog-tag
name. -/
def _build_catalog_tag_tree (s : RowStore) : Except PyErr CatalogTagTree :=
  (buildLeavesList s (getRowsDefault s.algorithms) (getRowsDefault s.catalog_tags)).map
    (fun d => ({ catalog_tags := d } : CatalogTagTree))

/-- Cache.get_catalog_tag_tree: return the snapshot unless absent or a
rebuild is requested; a failed rebuild leaves the previous snapshot in
place (the assignment never executes). -/
def get_catalog_tag_tree (st : St) (rebuild : Bool) : Except PyErr CatalogTagTree × St :=
  match st.cache.tree with
  | some t =>
      if rebuild then
        match _build_catalog_tag_tree st.store with
        | .error e => (.error e, st)
        | .ok t2 => (.ok t2, { st with cache := { st.cache with tree := some t2 } })
      else (.ok t, st)
  | none =>
      match _build_catalog_tag_tree st.store with
      | .error e => (.error e, st)
      | .ok t2 => (.ok t2, { st with cache := { st.cache with tree := some t2 } })

/-! ### CatalogTagLeaf.filter_for_dataset (models/trees.py)

The Python method builds request_by_estimator from the chosen dataset's
requests (dict overwrite: the later request wins per estimator id), then
constructs `the_copy` as a new CatalogTagDatasetTree and, when a dataset
was found, assigns `estimator_.request` on every estimator leaf reached
through `the_copy.algos`.  Pydantic v2 model construction with the default
configuration passes already-constructed submodel instances through by
reference (revalidate_instances defaults to never), so those assignments
are in-place mutations of the very AlgoLeaf/ModelLeaf/EstimatorLeaf
objects held by the receiver.  The embedding therefore returns both the
projection and the receiver's contents as observable after the call. -/

def annotateAlgos (algos : List (Nat × AlgoLeaf)) (request_by_estimator : List (Nat × RequestRow)) :
    List (Nat × AlgoLeaf) :=
  algos.map (fun (aid, algo_) =>
    (aid, { algo_ with models := algo_.models.map (fun (mid, models_) =>
      (mid, { models_ with estimators := models_.estimators.map (fun (eid, estimator_) =>
        (eid, { estimator_ with request := alookup request_by_estimator eid })) })) }))

def filter_for_dataset (self : CatalogTagLeaf) (dataset_id : Option Nat) :
    CatalogTagDatasetTree × CatalogTagLeaf :=
  let picked : Option DatasetLeaf :=
    match dataset_id with
    | some dsid => alookup self.datasets dsid
    | none => none
  let the_dataset : Option DatasetRow := picked.map (fun dl => dl.dataset)
  let requests_for_dataset : List (Nat × RequestRow) :=
    match picked with
    | some dl => dl.requests
    | none => []
  let request_by_estimator : List (Nat × RequestRow) :=
    requests_for_dataset.foldl (fun acc p => aset acc p.2.estimator_id p.2) []
  match the_dataset with
  | none =>
      ({ algos := self.algos, dataset := none, catalog_tag := self.catalog_tag,
         request_by_estimator := request_by_estimator }, self)
  | some ds =>
      let shared := annotateAlgos self.algos request_by_estimator
      ({ algos := shared, dataset := some ds, catalog_tag := self.catalog_tag,
         request_by_estimator := request_by_estimator },
       { self with algos := shared })

/-! ### Dataset.get_create_kwargs (db/dataset.py)

Creation keywords for a Dataset: name and catalog_tag_name are required
(their absence is the KeyError turned into the missing-create-input
error); path defaults to None and data to None.  The source branch is
`if path is not None ... elif data ...`, so an empty data dict counts as
absent, and a call supplying both path and data takes the path branch
while still storing both values in the returned keywords.  The two copies
of this method in the repository (db/src/.../db/dataset.py and
src/rail/pz_service/db/dataset.py) have identical logic. -/

structure DatasetCreateKwargs where
  name : Option String
  path : Option String
  data : Option DataDict
  catalog_tag_name : Option String
deriving Repr, DecidableEq

structure DatasetCreateResult where
  name : String
  path : Option String
  n_objects : Nat
  data : Option DataDict
  catalog_tag_id : Nat
deriving Repr, DecidableEq

/-- Python truthiness of the `data` keyword: None and the empty dict are
falsy. -/
def dataTruthy : Option DataDict → Bool
  | none => false
  | some d => !d.isEmpty

def dataset_get_create_kwargs (env : Env) (s : RowStore) (kw : DatasetCreateKwargs) :
    Except PyErr DatasetCreateResult :=
  match kw.name with
  | none => .error (.missingCreateInput "Missing input to create Group: 'name'")
  | some name =>
      match kw.catalog_tag_name with
      | none => .error (.missingCreateInput "Missing input to create Group: 'catalog_tag_name'")
      | some catalog_tag_name =>
          match getCatalogTagRowByName s catalog_tag_name with
          | none => .error (.missingName ("CatalogTag " ++ catalog_tag_name ++ " not found"))
          | some catalog_tag_ =>
              let nObjects : Except PyErr Nat :=
                match kw.path with
                | some p => env.validateDataForPath p catalog_tag_
                | none =>
                    if dataTruthy kw.data then
                      env.validateData (kw.data.getD []) catalog_tag_
                    else
                      .error (.missingCreateInput
                        ("When creating a Dataset either 'path' to a file must be set or "
                          ++ "the `data` must be provided explicitly."))
              nObjects.map (fun n_objects =>
                { name := name, path := kw.path, n_objects := n_objects,
                  data := kw.data, catalog_tag_id := catalog_tag_.id })

/-! ### Operation sequences

The externally exposed cache operations, for stating properties that hold
after any sequence of calls. -/

inductive CacheOp where
  | getAlgoClass (key : Nat)
  | getCatalogTagClass (key : Nat)
  | getEstimatorOp (key : Nat)
  | getQpFileOp (key : Nat)
  | clearOp
  | getTree (rebuild : Bool)
deriving Repr, DecidableEq

def runOp (env : Env) (st : St) : CacheOp → St
  | .getAlgoClass k => (get_algo_class env st k).2
  | .getCatalogTagClass k => (get_catalog_tag_class env st k).2
  | .getEstimatorOp k => (get_estimator env st k).2
  | .getQpFileOp k => (get_qp_file env st k).2
  | .clearOp => clearCache st
  | .getTree r => (get_catalog_tag_tree st r).2

def runOps (env : Env) (st : St) (ops : List CacheOp) : St :=
  ops.foldl (runOp env) st

/-! ### Concrete fixtures

A small populated row store and environments in which every capability
succeeds, the stage lookup fails, or the request execution fails with an
exception outside the repository's error taxonomy. -/

def algoRow1 : AlgorithmRow := { id := 1, name := "algo1", class_name := "mod.Cls" }

def ctRow1 : CatalogTagRow := { id := 1, name := "ct1", class_name := "mod.Tag" }

def modelRow1 : ModelRow := { id := 1, name := "m1", path := "/a/m1.pkl", algo_id := 1, catalog_tag_id := 1 }

def estRow1 : EstimatorRow :=
  { id := 1, name := "e1", config := none, algo_id := 1, catalog_tag_id := 1, model_id := 1 }

def dsRow1 : DatasetRow :=
  { id := 1, name := "d1", n_objects := 5, path := some "/d/d1.hdf5", data := none, catalog_tag_id := 1 }

def reqRow1 : RequestRow :=
  { id := 1, user := "u", estimator_id := 1, dataset_id := 1, qp_file_path := none,
    time_created := 0, time_finished := none }

def store0 : RowStore :=
  { algorithms := [algoRow1], catalog_tags := [ctRow1], models := [modelRow1],
    estimators := [estRow1], datasets := [dsRow1], requests := [reqRow1] }

def trace0 : Trace := { stageLoads := 0, catalogLoads := 0, builds := 0, runs := 0 }

def st0 : St := { store := store0, cache := CacheState.empty, trace := trace0, clock := 7 }

/-- Environment in which every external capability succeeds. -/
def env0 : Env :=
  { getStage := fun c m => .ok { clsName := m ++ "." ++ c }
    getCatalogClass := fun c m => .ok { clsName := m ++ "." ++ c }
    buildStageInstance := fun n _ _ _ => .ok { stageName := n, outputPath := none }
    runCatEstimatorStage := fun _ _ => .ok ()
    estimateSinglePZ := fun _ _ _ => .ok ()
    writeHandle := fun _ => .ok ()
    validateDataForPath := fun _ _ => .ok 3
    validateData := fun d _ => .ok d.length
    archive := "archive" }

/-- Environment in which ceci's stage lookup raises StageNotFound. -/
def envFailStage : Env :=
  { env0 with getStage := fun _ _ => .error "stage not found" }

/-- Environment in which the batch estimation entry point raises an
exception outside the RAIL error taxonomy. -/
def envRunOther : Env :=
  { env0 with runCatEstimatorStage := fun _ _ => .error (.otherErr "boom") }

/-- A state whose algorithm, estimator and qp-file slots for id 1 hold the
permanent-failure marker. -/
def stFailed : St :=
  { st0 with cache := { CacheState.empty with
      algorithms := [(1, none)], estimators := [(1, none)], qp_files := [(1, none)] } }

/-- The empty row store. -/
def emptyStore : RowStore :=
  { algorithms := [], catalog_tags := [], models := [], estimators := [],
    datasets := [], requests := [] }

/-- Failure markers left in the cache while the underlying rows have been
deleted from the store. -/
def stDeleted : St :=
  { store := emptyStore
    cache := { CacheState.empty with algorithms := [(1, none)], qp_files := [(1, none)] }
    trace := trace0, clock := 0 }

def dsRow5 : DatasetRow :=
  { id := 5, name := "d5", n_objects := 2, path := none, data := none, catalog_tag_id := 1 }

def reqRow8 : RequestRow :=
  { id := 8, user := "u", estimator_id := 1, dataset_id := 5, qp_file_path := none,
    time_created := 2, time_finished := none }

def reqRow9 : RequestRow :=
  { id := 9, user := "u", estimator_id := 1, dataset_id := 5, qp_file_path := none,
    time_created := 3, time_finished := none }

/-- A cached catalog-tag leaf: one algorithm with one model holding one
estimator leaf (request None), and one dataset holding request 9 for that
estimator. -/
def leafW : CatalogTagLeaf :=
  { algos := [(1,
      { models := [(1,
          { estimators := [(1, { estimator := estRow1, request := none })]
            model := modelRow1 })]
        algo := algoRow1 })]
    datasets := [(5, { requests := [(9, reqRow9)], dataset := dsRow5 })]
    catalog_tag := some ctRow1 }

/-- Like leafW but with two requests (8 then 9) for estimator 1 in the
dataset's request map. -/
def leafW2 : CatalogTagLeaf :=
  { leafW with datasets := [(5, { requests := [(8, reqRow8), (9, reqRow9)], dataset := dsRow5 })] }

/-! ### Theorems -/

/-- C1: the claim says a second get_estimator / get_qp_file call returns
the value cached by the first call without re-invoking the builder or
re-executing the request.  Evaluating the code at a fully-successful
input: the first get_estimator call succeeds yet leaves the estimator
slot map empty, so the second call invokes PZFactory.build_stage_instance
again (build count 2); likewise get_qp_file leaves the qp-file slot map
empty and the second call re-executes the request (run count 2). -/
theorem C1_successes_not_memoized :
    (get_estimator env0 st0 1).1 = .ok { stageName := "e1", outputPath := none }
    ∧ ((get_estimator env0 st0 1).2).cache.estimators = []
    ∧ ((get_estimator env0 st0 1).2).trace.builds = 1
    ∧ (get_estimator env0 ((get_estimator env0 st0 1).2) 1).2.trace.builds = 2
    ∧ (get_qp_file env0 st0 1).1 = .ok "archive/qp_files/d1/e1.hdf5"
    ∧ ((get_qp_file env0 st0 1).2).cache.qp_files = []
    ∧ ((get_qp_file env0 st0 1).2).trace.runs = 1
    ∧ (get_qp_file env0 ((get_qp_file env0 st0 1).2) 1).2.trace.runs = 2 := by
  decide

/-- C2: the claim says any exception raised while executing a request
propagates as the typed request-failure error and marks the slot Failed.
Evaluating the code where the batch estimation entry point raises an
exception outside the RAIL taxonomy: get_qp_file propagates that
exception unchanged (not as the request error), leaves the qp-file slot
map empty, and leaves the Request row unfinished. -/
theorem C2_nonrequest_errors_uncaught :
    (get_qp_file envRunOther st0 1).1 = .error (.otherErr "boom")
    ∧ (get_qp_file envRunOther st0 1).2.cache.qp_files = []
    ∧ (get_qp_file envRunOther st0 1).2.store.requests = [reqRow1]
    ∧ reqRow1.qp_file_path = none ∧ reqRow1.time_finished = none := by
  decide

/-- C3 counterexample: the first failing resolution and the immediately
following call raise import errors with different messages, so the claim
that every subsequent call raises the same error with the same message is
false; the resolver is nevertheless not re-invoked (stage-load count
stays 1). -/
theorem C3_counterexample_messages_differ :
    (get_algo_class envFailStage st0 1).1 = .error (.importErr
      "Import of Algorithm failed because Failed to load stage mod.Cls because stage not found")
    ∧ (get_algo_class envFailStage ((get_algo_class envFailStage st0 1).2) 1).1
      = .error (.importErr "Failed to load alogrithm Algorithm algo1 1 mod.Cls")
    ∧ ("Import of Algorithm failed because Failed to load stage mod.Cls because stage not found"
        ≠ "Failed to load alogrithm Algorithm algo1 1 mod.Cls")
    ∧ ((get_algo_class envFailStage ((get_algo_class envFailStage st0 1).2) 1).2).trace.stageLoads
      = 1 := by
  decide

/-- C3 amended: once a slot is marked Failed and the row still exists,
every call to get_algo_class (resp. get_estimator) raises an import error
of the same type, with a fixed message determined by the row — whose text
differs from the first raise — and returns the state unchanged, so the
resolver and builder are not re-invoked and all subsequent calls behave
identically. -/
theorem C3_failed_slots_stable (env : Env) (st : St) (k : Nat) :
    (∀ algo_, alookup st.cache.algorithms k = some none →
      getAlgorithmRow st.store k = some algo_ →
      get_algo_class env st k
        = (.error (.importErr ("Failed to load alogrithm " ++ reprAlgorithm algo_)), st))
    ∧ (∀ est_, alookup st.cache.estimators k = some none →
      getEstimatorRow st.store k = some est_ →
      get_estimator env st k
        = (.error (.importErr ("Failed to load Estimator " ++ reprEstimator est_)), st)) := by
  constructor
  · intro algo_ h1 h2
    simp only [get_algo_class, h1, h2]
  · intro est_ h1 h2
    simp only [get_estimator, h1, h2]

/-- C3 amended, witness: at id 1 of the fixture state with Failed slots,
the memoized import errors are raised with the state unchanged. -/
theorem C3_failed_slots_stable_witness :
    get_algo_class env0 stFailed 1
      = (.error (.importErr ("Failed to load alogrithm " ++ reprAlgorithm algoRow1)), stFailed)
    ∧ get_estimator env0 stFailed 1
      = (.error (.importErr ("Failed to load Estimator " ++ reprEstimator estRow1)), stFailed) :=
  ⟨(C3_failed_slots_stable env0 stFailed 1).1 algoRow1 (by decide) (by decide),
   (C3_failed_slots_stable env0 stFailed 1).2 estRow1 (by decide) (by decide)⟩

/-- C4: the claim says filter_for_dataset never mutates the cached
snapshot.  Evaluating the code on a leaf whose dataset 5 holds request 9
for estimator 1: after the call the receiver's estimator leaf — reached
through the submodel instances pydantic passed through by reference — has
its request field changed from None to request 9. -/
theorem C4_filter_mutates_cached_tree :
    ((filter_for_dataset leafW (some 5)).2 ≠ leafW)
    ∧ (filter_for_dataset leafW (some 5)).2
      = { leafW with algos := [(1,
          { models := [(1,
              { estimators := [(1, { estimator := estRow1, request := some reqRow9 })]
                model := modelRow1 })]
            algo := algoRow1 })] } := by
  decide

/-- C5: clear resets the four slot maps to empty and drops the tree
snapshot in one step, and a subsequent get_algo_class on any key whose
row exists re-attempts resolution (the stage loader is invoked once
more). -/
theorem C5_clear_resets (st : St) :
    (clearCache st).cache.algorithms = [] ∧ (clearCache st).cache.catalog_tags = []
    ∧ (clearCache st).cache.estimators = [] ∧ (clearCache st).cache.qp_files = []
    ∧ (clearCache st).cache.tree = none
    ∧ ∀ env k algo_, getAlgorithmRow st.store k = some algo_ →
        ((get_algo_class env (clearCache st) k).2).trace.stageLoads
          = st.trace.stageLoads + 1 := by
  refine ⟨rfl, rfl, rfl, rfl, rfl, ?_⟩
  intro env k algo_ h
  have h0 : alookup (clearCache st).cache.algorithms k = none := rfl
  have h' : getAlgorithmRow (clearCache st).store k = some algo_ := h
  simp only [get_algo_class, h0, h']
  split
  · rfl
  · rfl

/-- C5 witness: clearing the Failed-slot fixture state and re-requesting
algorithm 1 performs a fresh resolution attempt. -/
theorem C5_clear_resets_witness :
    getAlgorithmRow stFailed.store 1 = some algoRow1
    ∧ ((get_algo_class env0 (clearCache stFailed) 1).2).trace.stageLoads
      = stFailed.trace.stageLoads + 1 :=
  ⟨by decide, (C5_clear_resets stFailed).2.2.2.2.2 env0 1 algoRow1 (by decide)⟩

/-- C10: a call against a Failed slot first re-fetches the row, so when
the row has been deleted the call raises the missing-ID error rather than
the memoized import / request failure. -/
theorem C10_failed_slot_requires_row (env : Env) (st : St) (k : Nat) :
    (alookup st.cache.algorithms k = some none → getAlgorithmRow st.store k = none →
      get_algo_class env st k
        = (.error (.missingID ("Algorithm " ++ toString k ++ " not found")), st))
    ∧ (alookup st.cache.qp_files k = some none → getRequestRow st.store k = none →
      get_qp_file env st k
        = (.error (.missingID ("Request " ++ toString k ++ " not found")), st)) := by
  constructor
  · intro h1 h2
    simp only [get_algo_class, h1, h2]
  · intro h1 h2
    simp only [get_qp_file, h1, h2]

/-- The both-null-or-both-set invariant on the completion fields of every
Request row. -/
def finishedInv (s : RowStore) : Prop :=
  ∀ r ∈ s.requests, r.qp_file_path.isSome = r.time_finished.isSome

instance (s : RowStore) : Decidable (finishedInv s) :=
  inferInstanceAs (Decidable (∀ r ∈ s.requests, r.qp_file_path.isSome = r.time_finished.isSome))

theorem get_algo_class_store (env : Env) (st : St) (k : Nat) :
    ((get_algo_class env st k).2).store = st.store := by
  cases h1 : alookup st.cache.algorithms k with
  | some slot =>
      cases slot with
      | none => cases h2 : getAlgorithmRow st.store k <;> simp [get_algo_class, h1, h2]
      | some c => simp [get_algo_class, h1]
  | none =>
      cases h2 : getAlgorithmRow st.store k with
      | none => simp [get_algo_class, h1, h2]
      | some algo_ =>
          cases h3 : loadAlgorithmClass env algo_ <;>
            simp [get_algo_class, h1, h2, h3, markAlgorithmFailed, bumpStageLoads]

theorem get_catalog_tag_class_store (env : Env) (st : St) (k : Nat) :
    ((get_catalog_tag_class env st k).2).store = st.store := by
  cases h1 : alookup st.cache.catalog_tags k with
  | some slot =>
      cases slot with
      | none => cases h2 : getCatalogTagRow st.store k <;> simp [get_catalog_tag_class, h1, h2]
      | some c => simp [get_catalog_tag_class, h1]
  | none =>
      cases h2 : getCatalogTagRow st.store k with
      | none => simp [get_catalog_tag_class, h1, h2]
      | some catalog_tag_ =>
          cases h3 : loadCatalogTagClass env catalog_tag_ <;>
            simp [get_catalog_tag_class, h1, h2, h3, markCatalogTagFailed, bumpCatalogLoads]

theorem _build_estimator_store (env : Env) (st : St) (e : EstimatorRow) :
    ((_build_estimator env st e).2).store = st.store := by
  cases h1 : get_algo_class env st e.algo_id with
  | mk r1 st1 =>
      have hs1 : st1.store = st.store := by
        have hh := get_algo_class_store env st e.algo_id
        rw [h1] at hh
        exact hh
      cases r1 with
      | error err => simp [_build_estimator, h1, hs1]
      | ok cls =>
          cases h2 : get_catalog_tag_class env st1 e.catalog_tag_id with
          | mk r2 st2 =>
              have hs2 : st2.store = st.store := by
                have hh := get_catalog_tag_class_store env st1 e.catalog_tag_id
                rw [h2] at hh
                exact hh.trans hs1
              cases r2 with
              | error err => simp [_build_estimator, h1, h2, hs2]
              | ok ctcls =>
                  cases h3 : getModelRow st2.store e.model_id with
                  | none =>
                      have hred : ((_build_estimator env st e).2) = st2 := by
                        simp [_build_estimator, h1, h2, h3]
                      rw [hred]
                      exact hs2
                  | some model =>
                      have hred : ((_build_estimator env st e).2) = bumpBuilds st2 := by
                        simp [_build_estimator, h1, h2, h3]
                      rw [hred]
                      exact hs2

theorem get_estimator_store (env : Env) (st : St) (k : Nat) :
    ((get_estimator env st k).2).store = st.store := by
  cases h1 : alookup st.cache.estimators k with
  | some slot =>
      cases slot with
      | none => cases h2 : getEstimatorRow st.store k <;> simp [get_estimator, h1, h2]
      | some c => simp [get_estimator, h1]
  | none =>
      cases h2 : getEstimatorRow st.store k with
      | none => simp [get_estimator, h1, h2]
      | some est_ =>
          cases hb : _build_estimator env st est_ with
          | mk rb stb =>
              have hsb : stb.store = st.store := by
                have hh := _build_estimator_store env st est_
                rw [hb] at hh
                exact hh
              cases rb with
              | error err =>
                  cases err <;> simp [get_estimator, h1, h2, hb, markEstimatorFailed, hsb]
              | ok inst => simp [get_estimator, h1, h2, hb, hsb]

theorem runRequestStage_store (env : Env) (st : St) (inst : EstInstance) (d : DatasetRow) :
    ((runRequestStage env st inst d).2).store = st.store := by
  cases h1 : d.path with
  | some p => simp [runRequestStage, h1, bumpRuns]
  | none =>
      cases h2 : env.estimateSinglePZ inst (d.data.getD []) d.n_objects with
      | error e => simp [runRequestStage, h1, h2, bumpRuns]
      | ok u => simp [runRequestStage, h1, h2, bumpRuns]

theorem updateRequestFinished_inv (s : RowStore) (rid : Nat) (p : String) (now : Nat)
    (h : finishedInv s) : finishedInv (updateRequestFinished s rid p now) := by
  intro r hr
  unfold updateRequestFinished at hr
  simp only [List.mem_map] at hr
  obtain ⟨a, ha, rfl⟩ := hr
  by_cases hid : (a.id == rid) = true
  · simp [hid]
  · simp only [hid, if_false]
    exact h a ha

theorem _process_request_inv (env : Env) (st : St) (req : RequestRow)
    (h : finishedInv st.store) : finishedInv ((_process_request env st req).2).store := by
  cases h1 : getEstimatorRow st.store req.estimator_id with
  | none =>
      have hred : ((_process_request env st req).2) = st := by
        simp [_process_request, h1]
      rw [hred]
      exact h
  | some estimator =>
      cases h2 : get_estimator env st req.estimator_id with
      | mk r2 st1 =>
          have hs1 : st1.store = st.store := by
            have hh := get_estimator_store env st req.estimator_id
            rw [h2] at hh
            exact hh
          cases r2 with
          | error e =>
              have hred : ((_process_request env st req).2) = st1 := by
                simp [_process_request, h1, h2]
              rw [hred, hs1]
              exact h
          | ok inst =>
              cases h3 : getDatasetRow st1.store req.dataset_id with
              | none =>
                  have hred : ((_process_request env st req).2) = st1 := by
                    simp [_process_request, h1, h2, h3]
                  rw [hred, hs1]
                  exact h
              | some dataset =>
                  cases h4 : runRequestStage env st1
                      (withOutput inst (outputPathFor env dataset estimator)) dataset with
                  | mk r4 st2 =>
                      have hs2 : st2.store = st.store := by
                        have hh := runRequestStage_store env st1
                          (withOutput inst (outputPathFor env dataset estimator)) dataset
                        rw [h4] at hh
                        exact hh.trans hs1
                      cases r4 with
                      | error e =>
                          have hred : ((_process_request env st req).2) = st2 := by
                            simp [_process_request, h1, h2, h3, h4]
                          rw [hred, hs2]
                          exact h
                      | ok u =>
                          have hres : ((_process_request env st req).2).store
                              = updateRequestFinished st2.store req.id
                                  (outputPathFor env dataset estimator) st2.clock := by
                            simp [_process_request, h1, h2, h3, h4]
                          rw [hres, hs2]
                          exact updateRequestFinished_inv _ _ _ _ h

theorem get_qp_file_inv (env : Env) (st : St) (k : Nat)
    (h : finishedInv st.store) : finishedInv ((get_qp_file env st k).2).store := by
  cases h1 : alookup st.cache.qp_files k with
  | some slot =>
      cases slot with
      | none => cases h2 : getRequestRow st.store k <;> simpa [get_qp_file, h1, h2] using h
      | some qp => simpa [get_qp_file, h1] using h
  | none =>
      cases h2 : getRequestRow st.store k with
      | none => simpa [get_qp_file, h1, h2] using h
      | some req =>
          cases hp : _process_request env st req with
          | mk rp stp =>
              have hinv : finishedInv stp.store := by
                have hh := _process_request_inv env st req h
                rw [hp] at hh
                exact hh
              cases rp with
              | error e =>
                  cases e <;> simpa [get_qp_file, h1, h2, hp, markQpFileFailed] using hinv
              | ok qp => simpa [get_qp_file, h1, h2, hp] using hinv

theorem get_catalog_tag_tree_store (st : St) (r : Bool) :
    ((get_catalog_tag_tree st r).2).store = st.store := by
  cases h1 : st.cache.tree with
  | some t =>
      cases r with
      | false => simp [get_catalog_tag_tree, h1]
      | true =>
          cases h2 : _build_catalog_tag_tree st.store <;> simp [get_catalog_tag_tree, h1, h2]
  | none =>
      cases h2 : _build_catalog_tag_tree st.store <;> simp [get_catalog_tag_tree, h1, h2]

theorem runOp_inv (env : Env) (st : St) (op : CacheOp) (h : finishedInv st.store) :
    finishedInv ((runOp env st op).store) := by
  cases op with
  | getAlgoClass k =>
      show finishedInv ((get_algo_class env st k).2).store
      rw [get_algo_class_store]
      exact h
  | getCatalogTagClass k =>
      show finishedInv ((get_catalog_tag_class env st k).2).store
      rw [get_catalog_tag_class_store]
      exact h
  | getEstimatorOp k =>
      show finishedInv ((get_estimator env st k).2).store
      rw [get_estimator_store]
      exact h
  | getQpFileOp k => exact get_qp_file_inv env st k h
  | clearOp => exact h
  | getTree r =>
      show finishedInv ((get_catalog_tag_tree st r).2).store
      rw [get_catalog_tag_tree_store]
      exact h

/-- C6: after any sequence of cache operations, every Request row still
has qp_file_path and time_finished both unset or both set: a failed
execution never touches the row and a successful one sets both fields in
the same update, so the invariant is preserved from any state satisfying
it. -/
theorem C6_finished_invariant (env : Env) (st : St) (ops : List CacheOp)
    (h : finishedInv st.store) : finishedInv (runOps env st ops).store := by
  induction ops generalizing st with
  | nil => exact h
  | cons op rest ih => exact ih (runOp env st op) (runOp_inv env st op h)

/-- C6 witness: the fixture store satisfies the invariant, and it still
holds after executing request 1 through the cache. -/
theorem C6_finished_invariant_witness :
    finishedInv st0.store
    ∧ finishedInv (runOps env0 st0 [CacheOp.getQpFileOp 1]).store :=
  ⟨by decide, C6_finished_invariant env0 st0 [CacheOp.getQpFileOp 1] (by decide)⟩

/-- C10 witness: with Failed slots for id 1 but an emptied row store, both
calls surface the missing-ID error. -/
theorem C10_failed_slot_requires_row_witness :
    get_algo_class env0 stDeleted 1
      = (.error (.missingID ("Algorithm " ++ toString 1 ++ " not found")), stDeleted)
    ∧ get_qp_file env0 stDeleted 1
      = (.error (.missingID ("Request " ++ toString 1 ++ " not found")), stDeleted) :=
  ⟨(C10_failed_slot_requires_row env0 stDeleted 1).1 (by decide) (by decide),
   (C10_failed_slot_requires_row env0 stDeleted 1).2 (by decide) (by decide)⟩

/-! ### Last-write-wins lookup (support for the tree projection) -/

/-- The request retained for an estimator id by the dict-overwrite loop of
filter_for_dataset: the last entry of the dataset's request map whose
request has that estimator id. -/
def lastRequestFor (requests : List (Nat × RequestRow)) (eid : Nat) : Option RequestRow :=
  match requests with
  | [] => none
  | q :: t => (lastRequestFor t eid).or (if q.2.estimator_id == eid then some q.2 else none)

theorem alookup_map_upd {α : Type} (m : List (Nat × α)) (k k' : Nat) (v : α) :
    alookup (m.map (fun p => if p.1 == k then (k, v) else p)) k'
      = if k' == k then (if amem m k then some v else none) else alookup m k' := by
  induction m with
  | nil => by_cases h : k' = k <;> simp [alookup, amem, h]
  | cons p t ih =>
      by_cases hp : p.1 = k
      · by_cases hk : k' = k
        · simp [alookup, amem, hp, hk]
        · have hkk : ¬(p.1 = k') := by
            rw [hp]
            exact fun hh => hk hh.symm
          simp only [List.map_cons]
          rw [show ((if (p.1 == k) = true then (k, v) else p)) = (k, v) by simp [hp]]
          simp only [alookup]
          rw [if_neg (by simp [hk]; exact fun hh => hk hh.symm)]
          rw [ih]
          simp [alookup, hk, hkk]
      · by_cases hq : p.1 = k'
        · have hkk : ¬(k' = k) := by
            rw [← hq]
            exact fun hh => hp hh
          simp [alookup, amem, hp, hq, hkk]
        · simp only [List.map_cons]
          rw [show ((if (p.1 == k) = true then (k, v) else p)) = p by simp [hp]]
          simp only [alookup]
          rw [if_neg (by simp [hq])]
          rw [ih]
          simp [alookup, amem, hp, hq]

theorem alookup_aset {α : Type} (m : List (Nat × α)) (k k' : Nat) (v : α) :
    alookup (aset m k v) k' = if k' == k then some v else alookup m k' := by
  unfold aset
  by_cases hm : amem m k = true
  · rw [if_pos hm, alookup_map_upd, hm]
    by_cases hk : k' = k <;> simp [hk]
  · rw [if_neg hm]
    induction m with
    | nil =>
        by_cases hk : k' = k
        · subst hk
          simp [alookup]
        · simp [alookup, hk, Ne.symm hk]
    | cons p t ih =>
        have hm2 : ¬(amem t k = true) := by
          intro hh
          exact hm (by simp [amem, hh])
        have hp : ¬(p.1 = k) := by
          intro hh
          exact hm (by simp [amem, hh])
        by_cases hq : p.1 = k'
        · have hkk : ¬(k' = k) := by
            rw [← hq]
            exact hp
          simp [alookup, hq, hkk]
        · have hstep : alookup ((p :: t) ++ [(k, v)]) k' = alookup (t ++ [(k, v)]) k' := by
            simp [alookup, hq, List.cons_append]
          have hrhs : alookup (p :: t) k' = alookup t k' := by
            simp [alookup, hq]
          rw [hstep, ih hm2, hrhs]

theorem alookup_foldl_aset (rs : List (Nat × RequestRow)) (m : List (Nat × RequestRow))
    (k : Nat) :
    alookup (rs.foldl (fun acc p => aset acc p.2.estimator_id p.2) m) k
      = (lastRequestFor rs k).or (alookup m k) := by
  induction rs generalizing m with
  | nil => simp [lastRequestFor]
  | cons q t ih =>
      rw [List.foldl_cons, ih]
      show (lastRequestFor t k).or (alookup (aset m q.2.estimator_id q.2) k)
        = ((lastRequestFor t k).or
            (if q.2.estimator_id == k then some q.2 else none)).or (alookup m k)
      rw [alookup_aset]
      cases lastRequestFor t k with
      | some r => simp
      | none =>
          simp only [Option.none_or]
          by_cases hk : q.2.estimator_id = k
          · simp [hk]
          · simp [hk, Ne.symm hk]

theorem annotateAlgos_request (algos : List (Nat × AlgoLeaf)) (rbe : List (Nat × RequestRow)) :
    ∀ p ∈ annotateAlgos algos rbe, ∀ q ∈ p.2.models, ∀ e ∈ q.2.estimators,
      e.2.request = alookup rbe e.1 := by
  intro p hp q hq e he
  unfold annotateAlgos at hp
  obtain ⟨p0, hp0, hpe⟩ := List.mem_map.1 hp
  obtain ⟨aid, al⟩ := p0
  subst hpe
  simp only at hq
  obtain ⟨q0, hq0, hqe⟩ := List.mem_map.1 hq
  obtain ⟨mid, ml⟩ := q0
  subst hqe
  simp only at he
  obtain ⟨e0, he0, hee⟩ := List.mem_map.1 he
  obtain ⟨eid, el⟩ := e0
  subst hee
  rfl

/-- C7: in the projection, each estimator leaf carries at most one request
(the field is optional), namely the last request of the chosen dataset's
request map whose estimator id matches the leaf — the later request wins
when several exist. -/
theorem C7_last_request_per_estimator (self : CatalogTagLeaf) (dsid : Nat) (dl : DatasetLeaf)
    (h : alookup self.datasets dsid = some dl) :
    ∀ p ∈ (filter_for_dataset self (some dsid)).1.algos,
    ∀ q ∈ p.2.models, ∀ e ∈ q.2.estimators,
      e.2.request = lastRequestFor dl.requests e.1 := by
  intro p hp q hq e he
  have halgos : (filter_for_dataset self (some dsid)).1.algos
      = annotateAlgos self.algos
          (dl.requests.foldl (fun acc p => aset acc p.2.estimator_id p.2) []) := by
    simp [filter_for_dataset, h]
  rw [halgos] at hp
  have hr := annotateAlgos_request _ _ p hp q hq e he
  rw [hr, alookup_foldl_aset]
  simp [alookup]

def dl2 : DatasetLeaf := { requests := [(8, reqRow8), (9, reqRow9)], dataset := dsRow5 }

def eW : Nat × EstimatorLeaf := (1, { estimator := estRow1, request := some reqRow9 })

def qW : Nat × ModelLeaf := (1, { estimators := [eW], model := modelRow1 })

def pW : Nat × AlgoLeaf := (1, { models := [qW], algo := algoRow1 })

/-- C7 witness: with two requests (8 then 9) for estimator 1, the
projected estimator leaf carries exactly request 9, the later one. -/
theorem C7_last_request_per_estimator_witness :
    eW.2.request = lastRequestFor dl2.requests eW.1
    ∧ lastRequestFor dl2.requests 1 = some reqRow9 :=
  ⟨C7_last_request_per_estimator leafW2 5 dl2 (by decide) pW (by decide) qW (by decide)
      eW (by decide),
   by decide⟩

def kwBoth : DatasetCreateKwargs :=
  { name := some "dboth", path := some "/p/file.hdf5", data := some [("x", [1, 2])],
    catalog_tag_name := some "ct1" }

def rBoth : DatasetCreateResult :=
  { name := "dboth", path := some "/p/file.hdf5", n_objects := 3,
    data := some [("x", [1, 2])], catalog_tag_id := 1 }

def kwNeither : DatasetCreateKwargs :=
  { name := some "dn", path := none, data := some [], catalog_tag_name := some "ct1" }

/-- C8 counterexample: a creation call supplying both a path and inline
data is accepted, and the returned creation keywords carry both — so "no
accepted Dataset has both path and data set" is false (the path branch
wins only for computing object_count). -/
theorem C8_counterexample_both_sources :
    dataset_get_create_kwargs env0 store0 kwBoth = .ok rBoth
    ∧ rBoth.path.isSome = true ∧ dataTruthy rBoth.data = true := by
  decide

/-- C8 amended: an accepted Dataset creation has at least one of path /
truthy inline data (neither, including an empty data dict, raises the
missing-create-input error with the fixed message), the accepted keywords
pass path and data through unchanged, and object_count comes from the
path validator whenever a path is present (from the data validator
otherwise) — both sources may be present simultaneously. -/
theorem C8_at_least_one_source (env : Env) (s : RowStore) (kw : DatasetCreateKwargs) :
    (∀ r, dataset_get_create_kwargs env s kw = .ok r →
        (r.path.isSome || dataTruthy r.data) = true
        ∧ r.path = kw.path ∧ r.data = kw.data
        ∧ (∀ p ctn ct, kw.path = some p → kw.catalog_tag_name = some ctn →
            getCatalogTagRowByName s ctn = some ct →
            env.validateDataForPath p ct = .ok r.n_objects)
        ∧ (∀ ctn ct, kw.path = none → kw.catalog_tag_name = some ctn →
            getCatalogTagRowByName s ctn = some ct →
            env.validateData (kw.data.getD []) ct = .ok r.n_objects))
    ∧ (kw.path = none → dataTruthy kw.data = false →
        ∀ nm ctn ct, kw.name = some nm → kw.catalog_tag_name = some ctn →
          getCatalogTagRowByName s ctn = some ct →
          dataset_get_create_kwargs env s kw = .error (.missingCreateInput
            ("When creating a Dataset either 'path' to a file must be set or "
              ++ "the `data` must be provided explicitly."))) := by
  constructor
  · intro r hr
    cases hn : kw.name with
    | none => simp [dataset_get_create_kwargs, hn] at hr
    | some nm =>
        cases hc : kw.catalog_tag_name with
        | none => simp [dataset_get_create_kwargs, hn, hc] at hr
        | some ctn =>
            cases hct : getCatalogTagRowByName s ctn with
            | none => simp [dataset_get_create_kwargs, hn, hc, hct] at hr
            | some ct =>
                cases hp : kw.path with
                | some p =>
                    cases hv : env.validateDataForPath p ct with
                    | error e =>
                        simp [dataset_get_create_kwargs, hn, hc, hct, hp, hv, Except.map] at hr
                    | ok n =>
                        simp only [dataset_get_create_kwargs, hn, hc, hct, hp, hv,
                          Except.map] at hr
                        injection hr with hr
                        subst hr
                        refine ⟨by simp, by simp [hp], rfl, ?_, ?_⟩
                        · intro p2 ctn2 ct2 hp2 hc2 hct2
                          injection hp2 with hpp
                          subst hpp
                          injection hc2 with hcc
                          subst hcc
                          rw [hct] at hct2
                          injection hct2 with hctc
                          subst hctc
                          exact hv
                        · intro ctn2 ct2 hp2 hc2 hct2
                          exact absurd hp2 (by simp)
                | none =>
                    cases hd : dataTruthy kw.data with
                    | false =>
                        simp [dataset_get_create_kwargs, hn, hc, hct, hp, hd, Except.map] at hr
                    | true =>
                        cases hv : env.validateData (kw.data.getD []) ct with
                        | error e =>
                            simp [dataset_get_create_kwargs, hn, hc, hct, hp, hd, hv,
                              Except.map] at hr
                        | ok n =>
                            simp only [dataset_get_create_kwargs, hn, hc, hct, hp, hd, hv,
                              Except.map] at hr
                            injection hr with hr
                            subst hr
                            refine ⟨by simp [hd], by simp [hp], rfl, ?_, ?_⟩
                            · intro p2 ctn2 ct2 hp2 hc2 hct2
                              exact absurd hp2 (by simp)
                            · intro ctn2 ct2 hp2 hc2 hct2
                              injection hc2 with hcc
                              subst hcc
                              rw [hct] at hct2
                              injection hct2 with hctc
                              subst hctc
                              exact hv
  · intro hp hd nm ctn ct h1 h2 h3
    simp [dataset_get_create_kwargs, h1, h2, h3, hp, hd, Except.map]

/-- An inline-only creation: no path, truthy data. -/
def kwData : DatasetCreateKwargs :=
  { name := some "dd", path := none, data := some [("x", [1, 2])],
    catalog_tag_name := some "ct1" }

def rData : DatasetCreateResult :=
  { name := "dd", path := none, n_objects := 1,
    data := some [("x", [1, 2])], catalog_tag_id := 1 }

/-- C8 witness: the accepted both-sources creation satisfies the
at-least-one-source conclusion, the accepted inline-only creation takes
its object count from the data validator, and the neither-source
creation (empty data dict, no path) raises the missing-create-input
error. -/
theorem C8_at_least_one_source_witness :
    (rBoth.path.isSome || dataTruthy rBoth.data) = true
    ∧ env0.validateData (kwData.data.getD []) ctRow1 = .ok rData.n_objects
    ∧ dataset_get_create_kwargs env0 store0 kwNeither = .error (.missingCreateInput
        ("When creating a Dataset either 'path' to a file must be set or "
          ++ "the `data` must be provided explicitly.")) :=
  ⟨((C8_at_least_one_source env0 store0 kwBoth).1 rBoth (by decide)).1,
   (((C8_at_least_one_source env0 store0 kwData).1 rData (by decide)).2.2.2.2) "ct1" ctRow1
     (by decide) (by decide) (by decide),
   (C8_at_least_one_source env0 store0 kwNeither).2 (by decide) (by decide) "dn" "ct1" ctRow1
     (by decide) (by decide) (by decide)⟩

/-- A row store with 101 algorithms (ids 1..101) and one catalog tag. -/
def store101 : RowStore :=
  { algorithms := (List.range 101).map (fun i => { id := i + 1, name := "a", class_name := "m.C" })
    catalog_tags := [ctRow1], models := [], estimators := [], datasets := [], requests := [] }

/-- C9 counterexample: algorithm 101 is present in the row store, the
build succeeds, yet no catalog-tag leaf of the resulting tree carries an
algorithm node for id 101 — the builder reads algorithms through get_rows
with its default pagination (skip=0, limit=100). -/
theorem C9_counterexample_pagination :
    (store101.algorithms.any (fun a => a.id == 101)) = true
    ∧ ((_build_catalog_tag_tree store101).map
        (fun t => t.catalog_tags.all (fun p => amem p.2.algos 101))) = .ok false := by
  decide

theorem amem_iff_isSome {α : Type} (m : List (Nat × α)) (k : Nat) :
    amem m k = (alookup m k).isSome := by
  induction m with
  | nil => rfl
  | cons p t ih =>
      by_cases hp : p.1 = k
      · simp [amem, alookup, hp]
      · simp [amem, alookup, hp, ih]

theorem alookup_map_appendv (m : List (Nat × List ModelLeaf)) (k k' : Nat) (v : ModelLeaf) :
    alookup (m.map (fun p => if p.1 == k then (p.1, p.2 ++ [v]) else p)) k'
      = if k' == k then (alookup m k).map (fun l => l ++ [v]) else alookup m k' := by
  induction m with
  | nil => by_cases hk : k' = k <;> simp [alookup, hk]
  | cons p t ih =>
      by_cases hp : p.1 = k
      · by_cases hk : k' = k
        · subst hk
          simp [alookup, hp]
        · have hq : ¬(p.1 = k') := by
            rw [hp]
            exact fun hh => hk hh.symm
          have hkq : ¬(k = k') := fun hh => hk hh.symm
          have hL : alookup ((p :: t).map
                (fun p => if p.1 == k then (p.1, p.2 ++ [v]) else p)) k'
              = alookup (t.map (fun p => if p.1 == k then (p.1, p.2 ++ [v]) else p)) k' := by
            simp [alookup, hp, hkq]
          have hKk : alookup (p :: t) k' = alookup t k' := by
            simp [alookup, hq]
          rw [hL, ih, hKk]
          simp [hk]
      · by_cases hq : p.1 = k'
        · have hkk : ¬(k' = k) := by
            rw [← hq]
            exact hp
          simp [alookup, hp, hq, hkk]
        · have hL : alookup ((p :: t).map
                (fun p => if p.1 == k then (p.1, p.2 ++ [v]) else p)) k'
              = alookup (t.map (fun p => if p.1 == k then (p.1, p.2 ++ [v]) else p)) k' := by
            simp [alookup, hp, hq]
          have hK : alookup (p :: t) k = alookup t k := by
            simp [alookup, hp]
          have hKk : alookup (p :: t) k' = alookup t k' := by
            simp [alookup, hq]
          rw [hL, ih, hK, hKk]

theorem alookup_append_one {α : Type} (m : List (Nat × α)) (k k' : Nat) (v : α)
    (hm : amem m k = false) :
    alookup (m ++ [(k, v)]) k' = if k' == k then some v else alookup m k' := by
  induction m with
  | nil =>
      by_cases hk : k' = k
      · subst hk
        simp [alookup]
      · simp [alookup, hk, Ne.symm hk]
  | cons p t ih =>
      have hp : (p.1 == k) = false := by
        cases hpk : (p.1 == k) with
        | false => rfl
        | true =>
            simp only [amem, hpk, Bool.true_or] at hm
            exact hm
      have hm2 : amem t k = false := by
        simp only [amem, hp, Bool.false_or] at hm
        exact hm
      have hp' : ¬(p.1 = k) := by simpa using hp
      by_cases hq : p.1 = k'
      · have hkk : ¬(k' = k) := by
          rw [← hq]
          exact hp'
        simp [alookup, hq, hkk]
      · have hstep : alookup ((p :: t) ++ [(k, v)]) k' = alookup (t ++ [(k, v)]) k' := by
          simp [alookup, hq, List.cons_append]
        have hrhs : alookup (p :: t) k' = alookup t k' := by
          simp [alookup, hq]
        rw [hstep, ih hm2, hrhs]

theorem alookup_appendModelLeaf (acc : List (Nat × List ModelLeaf)) (k k' : Nat)
    (v : ModelLeaf) :
    alookup (appendModelLeaf acc k v) k'
      = if k' == k then some ((alookup acc k).getD [] ++ [v]) else alookup acc k' := by
  unfold appendModelLeaf
  by_cases hm : amem acc k = true
  · rw [if_pos hm, alookup_map_appendv]
    have hsome : (alookup acc k).isSome = true := by
      rw [← amem_iff_isSome]
      exact hm
    obtain ⟨w, hw⟩ := Option.isSome_iff_exists.1 hsome
    rw [hw]
    by_cases hk : k' = k <;> simp [hk]
  · rw [if_neg hm, alookup_append_one _ _ _ _ (by simpa using hm)]
    have hnone : alookup acc k = none := by
      have h1 := amem_iff_isSome acc k
      rw [show amem acc k = false by simpa using hm] at h1
      cases hl : alookup acc k with
      | none => rfl
      | some w =>
          rw [hl] at h1
          simp at h1
    by_cases hk : k' = k <;> simp [hk, hnone]

theorem alookup_foldl_append_none (s : RowStore) (ms : List ModelRow)
    (acc : List (Nat × List ModelLeaf)) (k : Nat)
    (hms : ms.all (fun m => !(m.algo_id == k)) = true) :
    alookup (ms.foldl (fun acc model_ =>
        appendModelLeaf acc model_.algo_id (buildModelLeaf s model_)) acc) k
      = alookup acc k := by
  induction ms generalizing acc with
  | nil => rfl
  | cons m t ih =>
      simp only [List.all_cons, Bool.and_eq_true] at hms
      have hne : ¬(k = m.algo_id) := by
        have h1 : ¬(m.algo_id = k) := by simpa using hms.1
        exact fun hh => h1 hh.symm
      rw [List.foldl_cons, ih _ hms.2, alookup_appendModelLeaf]
      simp [hne]

theorem alookup_foldl_append_isSome (s : RowStore) (ms : List ModelRow)
    (acc : List (Nat × List ModelLeaf)) (k : Nat)
    (h : (alookup acc k).isSome = true) :
    (alookup (ms.foldl (fun acc model_ =>
        appendModelLeaf acc model_.algo_id (buildModelLeaf s model_)) acc) k).isSome = true := by
  induction ms generalizing acc with
  | nil => exact h
  | cons m t ih =>
      rw [List.foldl_cons]
      apply ih
      rw [alookup_appendModelLeaf]
      by_cases hk : k = m.algo_id
      · simp [hk]
      · simp only [hk, if_neg (by simpa using hk : ¬((k == m.algo_id) = true))]
        exact h

theorem alookup_init_algos (algos : List AlgorithmRow) (a : AlgorithmRow) (ha : a ∈ algos) :
    alookup (algos.map (fun algo_ => (algo_.id, ([] : List ModelLeaf)))) a.id = some [] := by
  induction algos with
  | nil => cases ha
  | cons b t ih =>
      rcases List.mem_cons.1 ha with rfl | hmem
      · simp [alookup]
      · by_cases hb : b.id = a.id
        · simp [alookup, hb]
        · simp only [List.map_cons, alookup]
          rw [if_neg (by simpa using hb)]
          exact ih hmem

theorem buildAlgoTreeList_lookup (s : RowStore) (l : List (Nat × List ModelLeaf))
    (out : List (Nat × AlgoLeaf)) (hout : buildAlgoTreeList s l = .ok out)
    (k : Nat) (v : List ModelLeaf) (hv : alookup l k = some v) :
    ∃ al, alookup out k = some al
      ∧ al.models = v.map (fun model_leaf => (model_leaf.model.id, model_leaf)) := by
  induction l generalizing out with
  | nil => simp [alookup] at hv
  | cons p t ih =>
      cases hrow : getAlgorithmRow s p.1 with
      | none =>
          rw [buildAlgoTreeList, hrow] at hout
          exact absurd hout (by simp)
      | some the_algo =>
          cases hrest : buildAlgoTreeList s t with
          | error e =>
              rw [buildAlgoTreeList, hrow, hrest] at hout
              exact absurd hout (by simp)
          | ok trest =>
              rw [buildAlgoTreeList, hrow, hrest] at hout
              injection hout with hout
              subst hout
              have hid : the_algo.id = p.1 := by
                have hfs := List.find?_some hrow
                simpa using hfs
              by_cases hk : p.1 = k
              · have hv2 : v = p.2 := by
                  rw [show alookup (p :: t) k = some p.2 by simp [alookup, hk]] at hv
                  injection hv with hv
                  exact hv.symm
                subst hv2
                refine ⟨{ models := p.2.map (fun model_leaf => (model_leaf.model.id, model_leaf))
                          algo := the_algo }, ?_, rfl⟩
                simp [alookup, hid, hk]
              · have hv2 : alookup t k = some v := by
                  rw [show alookup (p :: t) k = alookup t k by simp [alookup, hk]] at hv
                  exact hv
                obtain ⟨al, hal, hm⟩ := ih trest hrest hv2
                refine ⟨al, ?_, hm⟩
                rw [show alookup ((the_algo.id,
                      ({ models := p.2.map (fun model_leaf => (model_leaf.model.id, model_leaf))
                         algo := the_algo } : AlgoLeaf)) :: trest) k = alookup trest k by
                    simp [alookup, hid, hk]]
                exact hal

theorem buildLeavesList_mem (s : RowStore) (algos : List AlgorithmRow)
    (cts : List CatalogTagRow) (out : List (String × CatalogTagLeaf))
    (hout : buildLeavesList s algos cts = .ok out)
    (nm : String) (leaf : CatalogTagLeaf) (hmem : (nm, leaf) ∈ out) :
    ∃ ct ∈ cts, buildCatalogTagLeaf s algos ct = .ok leaf := by
  induction cts generalizing out with
  | nil =>
      rw [buildLeavesList] at hout
      injection hout with hout
      subst hout
      cases hmem
  | cons c rest ih =>
      cases h1 : buildCatalogTagLeaf s algos c with
      | error e =>
          rw [buildLeavesList, h1] at hout
          exact absurd hout (by simp)
      | ok lf =>
          cases h2 : buildLeavesList s algos rest with
          | error e =>
              rw [buildLeavesList, h1, h2] at hout
              exact absurd hout (by simp)
          | ok t2 =>
              rw [buildLeavesList, h1, h2] at hout
              injection hout with hout
              subst hout
              rcases List.mem_cons.1 hmem with heq | hmem2
              · injection heq with he1 he2
                subst he2
                exact ⟨c, List.mem_cons_self c rest, h1⟩
              · obtain ⟨ct, hct, hbuild⟩ := ih t2 h2 hmem2
                exact ⟨ct, List.mem_cons_of_mem c hct, hbuild⟩

theorem buildCatalogTagLeaf_ok (s : RowStore) (algos : List AlgorithmRow) (ct : CatalogTagRow)
    (leaf : CatalogTagLeaf) (h : buildCatalogTagLeaf s algos ct = .ok leaf) :
    leaf.catalog_tag = some ct
    ∧ buildAlgoTreeList s
        ((modelsOfCatalogTag s ct).foldl
          (fun acc model_ => appendModelLeaf acc model_.algo_id (buildModelLeaf s model_))
          (algos.map (fun algo_ => (algo_.id, ([] : List ModelLeaf)))))
      = .ok leaf.algos := by
  unfold buildCatalogTagLeaf at h
  cases hb : buildAlgoTreeList s
      ((modelsOfCatalogTag s ct).foldl
        (fun acc model_ => appendModelLeaf acc model_.algo_id (buildModelLeaf s model_))
        (algos.map (fun algo_ => (algo_.id, ([] : List ModelLeaf))))) with
  | error e =>
      rw [hb] at h
      exact absurd h (by simp [Except.map])
  | ok talgos =>
      rw [hb] at h
      simp only [Except.map] at h
      injection h with h
      subst h
      exact ⟨rfl, rfl⟩

/-- C9 amended: every algorithm among those returned by the row-store
listing (get_rows with its default pagination, i.e. the first 100 rows)
appears as an algorithm node under every catalog-tag leaf of a built
tree, with an empty models map when no model of that catalog tag
references it. -/
theorem C9_listed_algos_appear (s : RowStore) (t : CatalogTagTree)
    (h : _build_catalog_tag_tree s = .ok t)
    (nm : String) (leaf : CatalogTagLeaf) (hleaf : (nm, leaf) ∈ t.catalog_tags)
    (algo_ : AlgorithmRow) (ha : algo_ ∈ getRowsDefault s.algorithms) :
    ∃ al, alookup leaf.algos algo_.id = some al
      ∧ (∀ ct, leaf.catalog_tag = some ct →
          (modelsOfCatalogTag s ct).all (fun m => !(m.algo_id == algo_.id)) = true →
          al.models = []) := by
  unfold _build_catalog_tag_tree at h
  cases hbl : buildLeavesList s (getRowsDefault s.algorithms) (getRowsDefault s.catalog_tags) with
  | error e =>
      rw [hbl] at h
      exact absurd h (by simp [Except.map])
  | ok d =>
      rw [hbl] at h
      simp only [Except.map] at h
      injection h with h
      subst h
      obtain ⟨ct, hct, hbuild⟩ := buildLeavesList_mem _ _ _ _ hbl nm leaf hleaf
      obtain ⟨hctag, halgos⟩ := buildCatalogTagLeaf_ok _ _ _ _ hbuild
      have hinit := alookup_init_algos (getRowsDefault s.algorithms) algo_ ha
      have hsome := alookup_foldl_append_isSome s (modelsOfCatalogTag s ct)
        (((getRowsDefault s.algorithms)).map (fun algo_ => (algo_.id, ([] : List ModelLeaf))))
        algo_.id (by rw [hinit]; rfl)
      obtain ⟨v, hv⟩ := Option.isSome_iff_exists.1 hsome
      obtain ⟨al, hal, hmodels⟩ := buildAlgoTreeList_lookup _ _ _ halgos _ _ hv
      refine ⟨al, hal, ?_⟩
      intro ct2 hct2 hall
      rw [hctag] at hct2
      injection hct2 with hct2
      subst hct2
      have hnone := alookup_foldl_append_none s (modelsOfCatalogTag s ct)
        (((getRowsDefault s.algorithms)).map (fun algo_ => (algo_.id, ([] : List ModelLeaf))))
        algo_.id hall
      rw [hinit] at hnone
      rw [hnone] at hv
      injection hv with hv
      subst hv
      simpa using hmodels

/-- A store like the base fixture but with no models or estimators, so
algorithm 1 has zero models under catalog tag 1. -/
def store9 : RowStore := { store0 with models := [], estimators := [] }

def leaf9 : CatalogTagLeaf :=
  { algos := [(1, { models := [], algo := algoRow1 })]
    datasets := [(1, { requests := [(1, reqRow1)], dataset := dsRow1 })]
    catalog_tag := some ctRow1 }

def tree9 : CatalogTagTree := { catalog_tags := [("ct1", leaf9)] }

/-- C9 amended, witness: in the tree built over store9, algorithm 1
appears under the ct1 leaf with an empty models map. -/
theorem C9_listed_algos_appear_witness :
    ∃ al, alookup leaf9.algos algoRow1.id = some al
      ∧ (∀ ct, leaf9.catalog_tag = some ct →
          (modelsOfCatalogTag store9 ct).all (fun m => !(m.algo_id == algoRow1.id)) = true →
          al.models = []) :=
  C9_listed_algos_appear store9 tree9 (by decide) "ct1" leaf9 (by decide) algoRow1 (by decide)

end RailPZ
